import Mathlib

/-!
Verification of the `http_shopify_webhook` middleware (Go, package
`http_shopify_webhook`) against its natural-language specification.

The single source file defines three functions:
  * `WebhookVerify(key) -> Middleware` — public two-stage constructor;
  * `webhookVerifyHandler(key, h)` — the Gate: per request it reads the
    `X-Shopify-Hmac-Sha256` and `X-Shopify-Shop-Domain` headers, drains the
    body through an `io.TeeReader` into a buffer, calls `verifyRequest`,
    writes a 400 via `http.Error` on failure, and then always calls
    `h.ServeHTTP(w, r)`;
  * `verifyRequest(key, shop, shmac, bb)` — the Verifier: rejects when
    `shop == ""`, otherwise compares `hex.EncodeToString(HMAC-SHA256(key, bb))`
    with `shmac` by plain string equality.

Bytes are modelled as `Nat` values < 256; machine words of SHA-256 as `Nat`
reduced mod 2^32.  HMAC-SHA256 and the lowercase hex encoding are embedded in
full (faithful to FIPS 180-4 / RFC 2104, which is what the Go packages
`crypto/sha256`, `crypto/hmac` and `encoding/hex` implement), so that the
Verifier is the real function, not a stub.
-/

/-- Truncation to a 32-bit machine word, as `uint32` arithmetic in Go. -/
def w32 (x : Nat) : Nat := x % 4294967296

/-- Rotation right by `n` within 32 bits. -/
def rotr (n x : Nat) : Nat := w32 ((x >>> n) ||| (x <<< (32 - n)))

/-- The SHA-256 big sigma-0 function (FIPS 180-4, section 4.1.2). -/
def bsig0 (x : Nat) : Nat := (rotr 2 x) ^^^ (rotr 13 x) ^^^ (rotr 22 x)

/-- The SHA-256 big sigma-1 function. -/
def bsig1 (x : Nat) : Nat := (rotr 6 x) ^^^ (rotr 11 x) ^^^ (rotr 25 x)

/-- The SHA-256 small sigma-0 function. -/
def ssig0 (x : Nat) : Nat := (rotr 7 x) ^^^ (rotr 18 x) ^^^ (x >>> 3)

/-- The SHA-256 small sigma-1 function. -/
def ssig1 (x : Nat) : Nat := (rotr 17 x) ^^^ (rotr 19 x) ^^^ (x >>> 10)

/-- The SHA-256 choice function; complement on 32 bits is `x ^^^ 0xffffffff`. -/
def ch (x y z : Nat) : Nat := (x &&& y) ^^^ ((x ^^^ 0xffffffff) &&& z)

/-- The SHA-256 majority function. -/
def maj (x y z : Nat) : Nat := (x &&& y) ^^^ (x &&& z) ^^^ (y &&& z)

/-- The 64 SHA-256 round constants, written in decimal. -/
def sha256K : List Nat :=
  [1116352408, 1899447441, 3049323471, 3921009573, 961987163,
   1508970993, 2453635748, 2870763221, 3624381080, 310598401,
   607225278, 1426881987, 1925078388, 2162078206, 2614888103,
   3248222580, 3835390401, 4022224774, 264347078, 604807628,
   770255983, 1249150122, 1555081692, 1996064986, 2554220882,
   2821834349, 2952996808, 3210313671, 3336571891, 3584528711,
   113926993, 338241895, 666307205, 773529912, 1294757372,
   1396182291, 1695183700, 1986661051, 2177026350, 2456956037,
   2730485921, 2820302411, 3259730800, 3345764771, 3516065817,
   3600352804, 4094571909, 275423344, 430227734, 506948616,
   659060556, 883997877, 958139571, 1322822218, 1537002063,
   1747873779, 1955562222, 2024104815, 2227730452, 2361852424,
   2428436474, 2756734187, 3204031479, 3329325298]

/-- The running hash state: eight 32-bit words. -/
structure Hash8 where
  a : Nat
  b : Nat
  c : Nat
  d : Nat
  e : Nat
  f : Nat
  g : Nat
  h : Nat
deriving Repr, DecidableEq

/-- The SHA-256 initial hash value (FIPS 180-4, section 5.3.3), in decimal. -/
def sha256H0 : Hash8 :=
  ⟨1779033703, 3144134277, 1013904242, 2773480762,
   1359893119, 2600822924, 528734635, 1541459225⟩

/-- The big-endian byte decomposition: `n` bytes of `x`, most significant first. -/
def beBytes (n x : Nat) : List Nat :=
  (List.range n).map (fun i => (x >>> (8 * (n - 1 - i))) % 256)

/-- Grouping of bytes four at a time into big-endian 32-bit words. -/
def bytesToWords : List Nat → List Nat
  | b0 :: b1 :: b2 :: b3 :: rest =>
      ((b0 <<< 24) ||| (b1 <<< 16) ||| (b2 <<< 8) ||| b3) :: bytesToWords rest
  | _ => []

/-- The message padding: append `0x80`, zero bytes up to 56 mod 64, then the
bit length on eight big-endian bytes. -/
def padMessage (msg : List Nat) : List Nat :=
  let L := msg.length
  msg ++ [0x80] ++ List.replicate ((119 - L % 64) % 64) 0 ++ beBytes 8 (8 * L)

/-- Splitting of a word list into blocks of sixteen words; the first argument
is the block count, used as structural fuel. -/
def chunkWords : Nat → List Nat → List (List Nat)
  | 0, _ => []
  | n + 1, ws => ws.take 16 :: chunkWords n (ws.drop 16)

/-- One step of the message-schedule extension: append word `W[i]` for
`i = w.size`. -/
def extendStep (w : Array Nat) : Array Nat :=
  let i := w.size
  w.push (w32 (ssig1 w[i - 2]! + w[i - 7]! + ssig0 w[i - 15]! + w[i - 16]!))

/-- Extension of the sixteen block words to the full 64-word schedule. -/
def extendSchedule (ws : Array Nat) : Array Nat :=
  (List.range 48).foldl (fun w _ => extendStep w) ws

/-- One SHA-256 compression round; `kw` is the pair `(K[t], W[t])`. -/
def compressStep (s : Hash8) (kw : Nat × Nat) : Hash8 :=
  let t1 := w32 (s.h + bsig1 s.e + ch s.e s.f s.g + kw.1 + kw.2)
  let t2 := w32 (bsig0 s.a + maj s.a s.b s.c)
  ⟨w32 (t1 + t2), s.a, s.b, s.c, w32 (s.d + t1), s.e, s.f, s.g⟩

/-- Compression of one 16-word block into the running hash. -/
def compressBlock (h0 : Hash8) (block : List Nat) : Hash8 :=
  let w := extendSchedule block.toArray
  let s := (sha256K.zip w.toList).foldl compressStep h0
  ⟨w32 (h0.a + s.a), w32 (h0.b + s.b), w32 (h0.c + s.c), w32 (h0.d + s.d),
   w32 (h0.e + s.e), w32 (h0.f + s.f), w32 (h0.g + s.g), w32 (h0.h + s.h)⟩

/-- The SHA-256 digest of a byte sequence, as a list of 32 digest bytes. -/
def sha256 (msg : List Nat) : List Nat :=
  let ws := bytesToWords (padMessage msg)
  let hf := (chunkWords (ws.length / 16) ws).foldl compressBlock sha256H0
  ([hf.a, hf.b, hf.c, hf.d, hf.e, hf.f, hf.g, hf.h].map (beBytes 4)).flatten

/-- Normalization of an HMAC key to the 64-byte block size: hash if longer,
then zero-pad on the right (RFC 2104, as implemented by the Go package
`crypto/hmac`). -/
def blockSizedKey (key : List Nat) : List Nat :=
  let k0 := if 64 < key.length then sha256 key else key
  k0 ++ List.replicate (64 - k0.length) 0

/-- The HMAC-SHA256 construction: `H((K0 xor opad) ++ H((K0 xor ipad) ++ msg))`. -/
def hmacSha256 (key msg : List Nat) : List Nat :=
  let k := blockSizedKey key
  sha256 ((k.map (fun b => b ^^^ 0x5c)) ++ sha256 ((k.map (fun b => b ^^^ 0x36)) ++ msg))

/-- The lowercase hexadecimal digit for a value below sixteen. -/
def hexDigit (n : Nat) : Char :=
  if n < 10 then Char.ofNat (48 + n) else Char.ofNat (87 + n)

/-- The lowercase hexadecimal encoding of a byte list, two digits per byte, as
the Go function `hex.EncodeToString` produces. -/
def hexEncode (bs : List Nat) : String :=
  String.mk ((bs.map (fun b => [hexDigit (b / 16), hexDigit (b % 16)])).flatten)

/-- The UTF-8 bytes of a string, as the Go conversion `[]byte(s)`. -/
def strBytes (s : String) : List Nat := (String.toUTF8 s).data.toList.map UInt8.toNat

/-- The Verifier, `verifyRequest(key, shop, shmac, bb)` from the source:
reject when the shop header is empty, otherwise compare the lowercase-hex
HMAC-SHA256 of the body under `key` with the claimed signature by plain
string equality. -/
def verifyRequest (key shop shmac : String) (bb : List Nat) : Bool :=
  if shop == "" then
    false
  else
    let sum := hexEncode (hmacSha256 (strBytes key) bb)
    sum == shmac

/-- A request body stream: the bytes still available to be read, and whether
the stream fails with an I/O error after those bytes (instead of a clean EOF). -/
structure Body where
  avail : List Nat
  ioErr : Bool
deriving Repr, DecidableEq

/-- An incoming HTTP request: headers (stored under their canonical MIME names,
as the Go type `http.Header` keeps them) and the body stream. -/
structure Request where
  headers : List (String × String)
  body : Body
deriving Repr, DecidableEq

/-- The header lookup `r.Header.Get(k)`: the first value stored under the
(canonical) key, or the empty string when the header is absent. -/
def headerGet (hs : List (String × String)) (k : String) : String :=
  match hs.find? (fun p => p.1 == k) with
  | some p => p.2
  | none => ""

/-- An `http.ResponseWriter`: the status code sent by the first `WriteHeader`
call (if any) and the accumulated response body. -/
structure ResponseWriter where
  status : Option Nat
  out : String
deriving Repr, DecidableEq

/-- The `WriteHeader` method: only the first call takes effect. -/
def ResponseWriter.writeHeader (w : ResponseWriter) (code : Nat) : ResponseWriter :=
  match w.status with
  | none => { w with status := some code }
  | some _ => w

/-- The `Write` method: appends to the response body, sending an implicit 200
first when no status has been written yet. -/
def ResponseWriter.write (w : ResponseWriter) (s : String) : ResponseWriter :=
  { status := match w.status with | none => some 200 | some c => some c,
    out := w.out ++ s }

/-- The Go constant `http.StatusBadRequest`. -/
def StatusBadRequest : Nat := 400

/-- The Go helper `http.Error(w, error, code)`: write the status code, then the
message followed by a newline (`fmt.Fprintln`). -/
def httpError (w : ResponseWriter) (error : String) (code : Nat) : ResponseWriter :=
  (w.writeHeader code).write (error ++ "\n")

/-- Result of `tr := io.TeeReader(r.Body, &buffer); bb, err := ioutil.ReadAll(tr)`:
`bytes` is `bb` (everything readable before EOF or the error), `err` is the
error flag that the source discards with `_`, `buffer` is the tee copy, and
`rest` is the state `r.Body` is left in — drained. -/
structure ReadAllResult where
  bytes : List Nat
  err : Bool
  buffer : List Nat
  rest : Body
deriving Repr, DecidableEq

/-- Drain a body through a tee reader. An I/O error partway surfaces only as
`err := true`; the bytes read so far are still returned. -/
def readAllTee (b : Body) : ReadAllResult :=
  { bytes := b.avail
    err := b.ioErr
    buffer := b.avail
    rest := { avail := [], ioErr := b.ioErr } }

/-- What the Gate leaves behind at the instant it invokes the downstream
handler: the response writer as mutated by the Gate, the request object the
downstream handler receives, the bytes that were fed to the Verifier, and the
verdict of the Verifier.  Note that the tee `buffer` is dropped here exactly as in
the source: it is never reinstalled as `r.Body`, so `requestToDownstream`
carries the drained stream `rest`, not the buffered copy. -/
structure GateResult where
  response : ResponseWriter
  requestToDownstream : Request
  bodyRead : List Nat
  verified : Bool

/-- The body of the closure built by `webhookVerifyHandler(key, h)` in the
source, up to (and excluding) the unconditional `h.ServeHTTP(w, r)` call:
read the two headers, drain the body through the tee, verify, and write a 400
via `http.Error` when verification fails. -/
def webhookVerifyHandler (key : String) (w : ResponseWriter) (r : Request) : GateResult :=
  let shmac := headerGet r.headers "X-Shopify-Hmac-Sha256"
  let shop := headerGet r.headers "X-Shopify-Shop-Domain"
  let rd := readAllTee r.body
  let bb := rd.bytes
  let ok := verifyRequest key shop shmac bb
  let w1 := if ok then w else httpError w "Invalid webhook signature" StatusBadRequest
  { response := w1
    requestToDownstream := { headers := r.headers, body := rd.rest }
    bodyRead := bb
    verified := ok }

/-- A handler in the sense of `net/http`: it transforms the response-writer
state, given the request. -/
abbrev Handler : Type := ResponseWriter → Request → ResponseWriter

/-- The full wrapped handler: run the Gate, then unconditionally invoke the
downstream handler `h` on the resulting writer and request. -/
def gateHandler (key : String) (h : Handler) : Handler :=
  fun w r =>
    let g := webhookVerifyHandler key w r
    h g.response g.requestToDownstream

/-- A middleware transforms handlers. -/
abbrev Middleware : Type := Handler → Handler

/-- The public two-stage constructor `WebhookVerify(key)(h)`. -/
def WebhookVerify (key : String) : Middleware :=
  fun h => gateHandler key h

/-- The uppercase hexadecimal digit for a value below sixteen. -/
def hexDigitUpper (n : Nat) : Char :=
  if n < 10 then Char.ofNat (48 + n) else Char.ofNat (55 + n)

/-- The uppercase hexadecimal encoding of a byte list, two digits per byte. -/
def hexEncodeUpper (bs : List Nat) : String :=
  String.mk ((bs.map (fun b => [hexDigitUpper (b / 16), hexDigitUpper (b % 16)])).flatten)

/-- Unfolding characterization of the Verifier: it answers `true` exactly when
the shop header is non-empty and the claimed signature is the lowercase-hex
HMAC-SHA256 of the body under the key. -/
theorem verifyRequest_eq_true_iff (key shop shmac : String) (bb : List Nat) :
    verifyRequest key shop shmac bb = true
      ↔ shop ≠ "" ∧ shmac = hexEncode (hmacSha256 (strBytes key) bb) := by
  show (if shop == "" then false
        else (hexEncode (hmacSha256 (strBytes key) bb) == shmac : Bool)) = true ↔ _
  by_cases h : shop = ""
  · subst h
    simp only [beq_self_eq_true, if_true]
    simp only [ne_eq, not_true_eq_false, false_and, iff_false]
    exact Bool.false_ne_true
  · rw [if_neg]
    · constructor
      · intro hb
        exact ⟨h, (beq_iff_eq.mp hb).symm⟩
      · intro hc
        exact beq_iff_eq.mpr hc.2.symm
    · simp [h]

/-- Unfolding characterization of the response the Gate hands to the downstream
handler: untouched on success, the fixed 400 error on failure. -/
theorem gate_response_eq (key : String) (w : ResponseWriter) (r : Request) :
    (webhookVerifyHandler key w r).response
      = (if (webhookVerifyHandler key w r).verified then w
         else httpError w "Invalid webhook signature" StatusBadRequest) := rfl

/-- Claim C1: the spec invariant says the downstream handler must read body
bytes identical to those fed into the Verifier and to the original request
body.  The code violates this: the tee buffer is never reinstalled as
`r.Body`, so after the Gate drains the stream the downstream handler reads an
empty body.  Evaluated here at the failing input (body byte `[120]`, shop
header present): the Verifier was fed `[120]`, but the request passed
downstream has no bytes left, while the original body was non-empty. -/
theorem c1_downstream_body_drained :
    (webhookVerifyHandler "abc123" ⟨none, ""⟩
        ⟨[("X-Shopify-Shop-Domain", "shop")], ⟨[120], false⟩⟩).requestToDownstream.body.avail
      = []
    ∧ (webhookVerifyHandler "abc123" ⟨none, ""⟩
        ⟨[("X-Shopify-Shop-Domain", "shop")], ⟨[120], false⟩⟩).bodyRead = [120]
    ∧ ([120] : List Nat) ≠ [] :=
  ⟨rfl, rfl, by decide⟩

/-- Claim C2: on every request the Gate invokes the downstream handler, in both
branches; when the Verifier answers `false` it first writes the fixed 400
error response, and when it answers `true` it leaves the writer untouched —
the pipeline is never halted. -/
theorem c2_reject_writes_400_but_still_delegates (key : String) (h : Handler)
    (w : ResponseWriter) (r : Request) :
    gateHandler key h w r
      = h (webhookVerifyHandler key w r).response
          (webhookVerifyHandler key w r).requestToDownstream
    ∧ (webhookVerifyHandler key w r).response
      = (if (webhookVerifyHandler key w r).verified then w
         else httpError w "Invalid webhook signature" StatusBadRequest) :=
  ⟨rfl, rfl⟩

/-- Claim C3: the Verifier returns `true` if and only if the sender id is
non-empty and the claimed signature equals the lowercase hexadecimal encoding
of the HMAC-SHA256 digest of the body keyed with the secret; in particular
with sender id `"shop"` the correct signature is accepted and any other
string is rejected. -/
theorem c3_verify_true_iff (key shop shmac : String) (bb : List Nat) :
    verifyRequest key shop shmac bb = true
      ↔ shop ≠ "" ∧ shmac = hexEncode (hmacSha256 (strBytes key) bb) :=
  verifyRequest_eq_true_iff key shop shmac bb

/-- Claim C4: with an empty sender id the Verifier returns `false` for every
secret, claimed signature and body, even the correct signature; the reduction
is definitional (`rfl`), mirroring the early `return false` that precedes any
cryptographic computation in the source. -/
theorem c4_empty_sender_rejects (key shmac : String) (bb : List Nat) :
    verifyRequest key "" shmac bb = false := rfl

/-- Claim C5: a body stream that fails partway with an I/O error is absorbed
silently: the bytes read before the error are fed to the Verifier as the
body, the response and verdict are the same as for a clean stream holding
exactly those bytes, and the downstream handler is still invoked — the Gate
is a total function, so no error propagates to its caller. -/
theorem c5_io_error_absorbed (key : String) (h : Handler) (w : ResponseWriter)
    (hs : List (String × String)) (bs : List Nat) :
    (webhookVerifyHandler key w ⟨hs, ⟨bs, true⟩⟩).bodyRead = bs
    ∧ (webhookVerifyHandler key w ⟨hs, ⟨bs, true⟩⟩).response
        = (webhookVerifyHandler key w ⟨hs, ⟨bs, false⟩⟩).response
    ∧ (webhookVerifyHandler key w ⟨hs, ⟨bs, true⟩⟩).verified
        = (webhookVerifyHandler key w ⟨hs, ⟨bs, false⟩⟩).verified
    ∧ gateHandler key h w ⟨hs, ⟨bs, true⟩⟩
        = h (webhookVerifyHandler key w ⟨hs, ⟨bs, true⟩⟩).response
            (webhookVerifyHandler key w ⟨hs, ⟨bs, true⟩⟩).requestToDownstream :=
  ⟨rfl, rfl, rfl, rfl⟩

/-- Claim C6: when verification fails on a fresh response writer, the Gate
writes status 400 and exactly the body `"Invalid webhook signature"` followed
by a newline. -/
theorem c6_rejection_response (key : String) (r : Request)
    (hfail : (webhookVerifyHandler key ⟨none, ""⟩ r).verified = false) :
    (webhookVerifyHandler key ⟨none, ""⟩ r).response
      = ⟨some 400, "Invalid webhook signature\n"⟩ := by
  rw [gate_response_eq, hfail]
  rfl

/-- Witness for claim C6 at a concrete rejected request (no shop header, so
verification fails without any cryptography). -/
theorem c6_rejection_response_witness :
    (webhookVerifyHandler "abc123" ⟨none, ""⟩ ⟨[], ⟨[], false⟩⟩).response
      = ⟨some 400, "Invalid webhook signature\n"⟩ :=
  c6_rejection_response "abc123" ⟨[], ⟨[], false⟩⟩ rfl

/-- Claim C7: the verdict is exactly the Verifier applied to the values of the
headers `X-Shopify-Hmac-Sha256` and `X-Shopify-Shop-Domain` and the body; and
no other header influences the Gate: two requests agreeing on those two
header values and on the body produce the same verdict, response and body
bytes. -/
theorem c7_header_extraction (key : String) (w : ResponseWriter) (r1 r2 : Request)
    (hh : headerGet r1.headers "X-Shopify-Hmac-Sha256"
        = headerGet r2.headers "X-Shopify-Hmac-Sha256")
    (hsh : headerGet r1.headers "X-Shopify-Shop-Domain"
        = headerGet r2.headers "X-Shopify-Shop-Domain")
    (hb : r1.body = r2.body) :
    (webhookVerifyHandler key w r1).verified
        = verifyRequest key (headerGet r1.headers "X-Shopify-Shop-Domain")
            (headerGet r1.headers "X-Shopify-Hmac-Sha256") r1.body.avail
    ∧ (webhookVerifyHandler key w r1).verified = (webhookVerifyHandler key w r2).verified
    ∧ (webhookVerifyHandler key w r1).response = (webhookVerifyHandler key w r2).response
    ∧ (webhookVerifyHandler key w r1).bodyRead = (webhookVerifyHandler key w r2).bodyRead := by
  refine ⟨rfl, ?_, ?_, ?_⟩
  · show verifyRequest key (headerGet r1.headers "X-Shopify-Shop-Domain")
        (headerGet r1.headers "X-Shopify-Hmac-Sha256") r1.body.avail
      = verifyRequest key (headerGet r2.headers "X-Shopify-Shop-Domain")
        (headerGet r2.headers "X-Shopify-Hmac-Sha256") r2.body.avail
    rw [hh, hsh, hb]
  · show (if verifyRequest key (headerGet r1.headers "X-Shopify-Shop-Domain")
        (headerGet r1.headers "X-Shopify-Hmac-Sha256") r1.body.avail then w
        else httpError w "Invalid webhook signature" StatusBadRequest)
      = (if verifyRequest key (headerGet r2.headers "X-Shopify-Shop-Domain")
        (headerGet r2.headers "X-Shopify-Hmac-Sha256") r2.body.avail then w
        else httpError w "Invalid webhook signature" StatusBadRequest)
    rw [hh, hsh, hb]
  · show r1.body.avail = r2.body.avail
    rw [hb]

/-- Witness for claim C7: two concrete requests that differ only in an extra
unrelated header behave identically. -/
theorem c7_header_extraction_witness :
    (webhookVerifyHandler "k" ⟨none, ""⟩
        ⟨[("X-Shopify-Hmac-Sha256", "sig"), ("X-Shopify-Shop-Domain", "shop"),
          ("X-Extra", "other")], ⟨[1, 2], false⟩⟩).verified
        = verifyRequest "k"
            (headerGet [("X-Shopify-Hmac-Sha256", "sig"), ("X-Shopify-Shop-Domain", "shop"),
              ("X-Extra", "other")] "X-Shopify-Shop-Domain")
            (headerGet [("X-Shopify-Hmac-Sha256", "sig"), ("X-Shopify-Shop-Domain", "shop"),
              ("X-Extra", "other")] "X-Shopify-Hmac-Sha256") [1, 2]
    ∧ (webhookVerifyHandler "k" ⟨none, ""⟩
        ⟨[("X-Shopify-Hmac-Sha256", "sig"), ("X-Shopify-Shop-Domain", "shop"),
          ("X-Extra", "other")], ⟨[1, 2], false⟩⟩).verified
        = (webhookVerifyHandler "k" ⟨none, ""⟩
        ⟨[("X-Shopify-Hmac-Sha256", "sig"), ("X-Shopify-Shop-Domain", "shop")],
          ⟨[1, 2], false⟩⟩).verified
    ∧ (webhookVerifyHandler "k" ⟨none, ""⟩
        ⟨[("X-Shopify-Hmac-Sha256", "sig"), ("X-Shopify-Shop-Domain", "shop"),
          ("X-Extra", "other")], ⟨[1, 2], false⟩⟩).response
        = (webhookVerifyHandler "k" ⟨none, ""⟩
        ⟨[("X-Shopify-Hmac-Sha256", "sig"), ("X-Shopify-Shop-Domain", "shop")],
          ⟨[1, 2], false⟩⟩).response
    ∧ (webhookVerifyHandler "k" ⟨none, ""⟩
        ⟨[("X-Shopify-Hmac-Sha256", "sig"), ("X-Shopify-Shop-Domain", "shop"),
          ("X-Extra", "other")], ⟨[1, 2], false⟩⟩).bodyRead
        = (webhookVerifyHandler "k" ⟨none, ""⟩
        ⟨[("X-Shopify-Hmac-Sha256", "sig"), ("X-Shopify-Shop-Domain", "shop")],
          ⟨[1, 2], false⟩⟩).bodyRead :=
  c7_header_extraction "k" ⟨none, ""⟩
    ⟨[("X-Shopify-Hmac-Sha256", "sig"), ("X-Shopify-Shop-Domain", "shop"),
      ("X-Extra", "other")], ⟨[1, 2], false⟩⟩
    ⟨[("X-Shopify-Hmac-Sha256", "sig"), ("X-Shopify-Shop-Domain", "shop")],
      ⟨[1, 2], false⟩⟩
    rfl rfl rfl

/-- Claim C8: an empty secret is not validated and raises no error: for every
non-empty sender id the Verifier still computes the HMAC-SHA256 of the body
keyed with the empty key and accepts exactly its lowercase hex encoding. -/
theorem c8_empty_secret_still_verifies (shop shmac : String) (bb : List Nat)
    (hshop : shop ≠ "") :
    verifyRequest "" shop shmac bb = true
      ↔ shmac = hexEncode (hmacSha256 (strBytes "") bb) := by
  rw [verifyRequest_eq_true_iff]
  exact and_iff_right hshop

/-- Witness for claim C8: with the empty secret and the matching signature for
the empty body, the Verifier accepts. -/
theorem c8_empty_secret_still_verifies_witness :
    verifyRequest "" "shop" (hexEncode (hmacSha256 (strBytes "") [])) [] = true :=
  (c8_empty_secret_still_verifies "shop"
    (hexEncode (hmacSha256 (strBytes "") [])) [] (by decide)).mpr rfl

/-- Claim C9: the sender id is only a presence check, never cryptographic
input: any two non-empty sender ids yield the same verdict for the same
secret, signature and body. -/
theorem c9_sender_id_not_crypto_input (key shmac : String) (bb : List Nat)
    (s1 s2 : String) (h1 : s1 ≠ "") (h2 : s2 ≠ "") :
    verifyRequest key s1 shmac bb = verifyRequest key s2 shmac bb := by
  show (if s1 == "" then false
        else (hexEncode (hmacSha256 (strBytes key) bb) == shmac : Bool))
     = (if s2 == "" then false
        else (hexEncode (hmacSha256 (strBytes key) bb) == shmac : Bool))
  rw [if_neg, if_neg]
  · simp [h2]
  · simp [h1]

/-- Witness for claim C9 at two concrete non-empty sender ids. -/
theorem c9_sender_id_not_crypto_input_witness :
    verifyRequest "" "a" "x" [] = verifyRequest "" "b" "x" [] :=
  c9_sender_id_not_crypto_input "" "x" [] "a" "b" (by decide) (by decide)

/-- Claim C10: the signature comparison is exact, case-sensitive string
equality: for a non-empty sender id at most one claimed signature is
accepted, and the uppercase hexadecimal encoding of the correct digest is
rejected whenever it differs as a string from the lowercase encoding. -/
theorem c10_comparison_exact_case_sensitive (key : String) (bb : List Nat)
    (shop s1 s2 : String) (hshop : shop ≠ "")
    (h1 : verifyRequest key shop s1 bb = true)
    (h2 : verifyRequest key shop s2 bb = true)
    (hu : hexEncodeUpper (hmacSha256 (strBytes key) bb)
        ≠ hexEncode (hmacSha256 (strBytes key) bb)) :
    s1 = s2
    ∧ verifyRequest key shop (hexEncodeUpper (hmacSha256 (strBytes key) bb)) bb
        = false := by
  have e1 := (verifyRequest_eq_true_iff key shop s1 bb).mp h1
  have e2 := (verifyRequest_eq_true_iff key shop s2 bb).mp h2
  refine ⟨e1.2.trans e2.2.symm, ?_⟩
  cases hx : verifyRequest key shop (hexEncodeUpper (hmacSha256 (strBytes key) bb)) bb with
  | false => rfl
  | true =>
      exact absurd ((verifyRequest_eq_true_iff key shop _ bb).mp hx).2 hu

set_option maxRecDepth 1000000 in
/-- Witness for claim C10 at a concrete key and body whose digest contains an
alphabetic hex character, so the uppercase encoding differs. -/
theorem c10_comparison_exact_case_sensitive_witness :
    hexEncode (hmacSha256 (strBytes "k") [1]) = hexEncode (hmacSha256 (strBytes "k") [1])
    ∧ verifyRequest "k" "shop" (hexEncodeUpper (hmacSha256 (strBytes "k") [1])) [1]
        = false :=
  c10_comparison_exact_case_sensitive "k" [1] "shop" _ _ (by decide)
    ((verifyRequest_eq_true_iff "k" "shop"
        (hexEncode (hmacSha256 (strBytes "k") [1])) [1]).mpr ⟨by decide, rfl⟩)
    ((verifyRequest_eq_true_iff "k" "shop"
        (hexEncode (hmacSha256 (strBytes "k") [1])) [1]).mpr ⟨by decide, rfl⟩)
    (by decide)
